import Mathlib

/-!
RNDIS class host driver (LUFA): verification development

Shallow embedding of `LUFA/Drivers/USB/Class/Host/RNDIS.h`: the class state
structure, the enumeration error codes, the private signature and bitmask
constants and the inline task hook, followed by the properties proved about them.
Machine integers are natural numbers; where a width matters the reduction
modulo `2 ^ w` is written out.
-/

namespace RNDISHost

/-! ## Data model (`USB_ClassInfo_RNDIS_Host_t`) -/

/-- The `Config` member of `USB_ClassInfo_RNDIS_Host_t`. -/
structure Config where
  DataINPipeNumber : Nat
  DataINPipeDoubleBank : Bool
  DataOUTPipeNumber : Nat
  DataOUTPipeDoubleBank : Bool
  NotificationPipeNumber : Nat
  NotificationPipeDoubleBank : Bool
  HostMaxPacketSize : Nat
  deriving DecidableEq, Repr

/-- The `State` member of `USB_ClassInfo_RNDIS_Host_t`. -/
structure State where
  IsActive : Bool
  ControlInterfaceNumber : Nat
  DataINPipeSize : Nat
  DataOUTPipeSize : Nat
  NotificationPipeSize : Nat
  DeviceMaxPacketSize : Nat
  RequestID : Nat
  deriving DecidableEq, Repr

/-- The class state structure `USB_ClassInfo_RNDIS_Host_t`. -/
structure USB_ClassInfo_RNDIS_Host_t where
  Config : Config
  State : State
  deriving DecidableEq, Repr

/-! ## Error codes -/

/-- `enum RNDISHost_EnumerationFailure_ErrorCodes_t`. -/
def RNDIS_ENUMERROR_NoError : Nat := 0
/-- The device returned an invalid Configuration Descriptor. -/
def RNDIS_ENUMERROR_InvalidConfigDescriptor : Nat := 1
/-- A compatible RNDIS interface was not found. -/
def RNDIS_ENUMERROR_NoRNDISInterfaceFound : Nat := 2
/-- Compatible RNDIS endpoints were not found. -/
def RNDIS_ENUMERROR_EndpointsNotFound : Nat := 3

/-- The four enumeration codes, in declaration order. -/
def enumerationErrorCodes : List Nat :=
  [RNDIS_ENUMERROR_NoError, RNDIS_ENUMERROR_InvalidConfigDescriptor,
   RNDIS_ENUMERROR_NoRNDISInterfaceFound, RNDIS_ENUMERROR_EndpointsNotFound]

/-- `#define RNDIS_COMMAND_FAILED 0xC0`. -/
def RNDIS_COMMAND_FAILED : Nat := 0xC0

/-! ## Private constants -/

def RNDIS_CONTROL_CLASS : Nat := 0x02
def RNDIS_CONTROL_SUBCLASS : Nat := 0x02
def RNDIS_CONTROL_PROTOCOL : Nat := 0xFF
def RNDIS_DATA_CLASS : Nat := 0x0A
def RNDIS_DATA_SUBCLASS : Nat := 0x00
def RNDIS_DATA_PROTOCOL : Nat := 0x00

def RNDIS_FOUND_DATAPIPE_IN : Nat := 1 <<< 0
def RNDIS_FOUND_DATAPIPE_OUT : Nat := 1 <<< 1
def RNDIS_FOUND_NOTIFICATION_IN : Nat := 1 <<< 2

/-- The (class, subclass, protocol) triple of the RNDIS control interface. -/
def controlSignature : Nat × Nat × Nat :=
  (RNDIS_CONTROL_CLASS, RNDIS_CONTROL_SUBCLASS, RNDIS_CONTROL_PROTOCOL)

/-- The (class, subclass, protocol) triple of the RNDIS data interface. -/
def dataSignature : Nat × Nat × Nat :=
  (RNDIS_DATA_CLASS, RNDIS_DATA_SUBCLASS, RNDIS_DATA_PROTOCOL)

/-- The three endpoints the driver looks for. -/
inductive FoundEndpoint where
  | dataIN
  | dataOUT
  | notificationIN
  deriving DecidableEq, Repr

/-- The bitmask flag recording that an endpoint was found. -/
def FoundEndpoint.flag : FoundEndpoint → Nat
  | .dataIN => RNDIS_FOUND_DATAPIPE_IN
  | .dataOUT => RNDIS_FOUND_DATAPIPE_OUT
  | .notificationIN => RNDIS_FOUND_NOTIFICATION_IN

/-- The mask with all three endpoints found. -/
def allEndpointsFound : Nat :=
  RNDIS_FOUND_DATAPIPE_IN ||| RNDIS_FOUND_DATAPIPE_OUT ||| RNDIS_FOUND_NOTIFICATION_IN

/-- The bitwise OR of the flags of a collection of endpoints, accumulated the way
`FoundEndpoints |= FLAG` does, starting from zero. -/
def foundMask (S : List FoundEndpoint) : Nat :=
  S.foldl (fun m e => m ||| e.flag) 0

/-! ## The inline task hook -/

/-- `RNDIS_Host_USBTask`: the body is `(void)RNDISInterfaceInfo;`, so the instance
the pointer designates is returned as it was. -/
def RNDIS_Host_USBTask (RNDISInterfaceInfo : USB_ClassInfo_RNDIS_Host_t) :
    USB_ClassInfo_RNDIS_Host_t :=
  RNDISInterfaceInfo

/-! ## Control plane

`RNDIS.c` is not part of the sources; the header declares the operations and
documents their return values ("a value from the USB_Host_SendControlErrorCodes_t
enum or RNDIS_COMMAND_FAILED"). The definitions of this section follow the
specification's description of the session manager. The value of the transport's
success code (`HOST_SENDCONTROL_Successful`, declared in `USB.h`) is a parameter
`ok` of every operation. -/

/-- Modelled from the spec: the kinds of control request the session manager
builds (the message structures of `Common/RNDIS.h` are not part of the sources). -/
inductive RequestKind where
  | INITIALIZE
  | QUERY
  | SET
  | KEEPALIVE
  deriving DecidableEq, Repr

/-- Modelled from the spec: the fields of a control request (typed header with the
request ID, the OID of a query or set, and the payload); the C message structures
are not part of the sources. -/
structure ControlRequest where
  Kind : RequestKind
  RequestId : Nat
  Oid : Nat
  Payload : List Nat
  deriving DecidableEq, Repr

/-- Modelled from the spec: the fields the session manager reads from a
completion message: the request ID it answers, the device's status, the device's
maximum packet size (INITIALIZE-COMPLETE) and the property value (QUERY-COMPLETE);
the C message structures are not part of the sources. -/
structure ControlResponse where
  RequestId : Nat
  Status : Nat
  MaxTransferSize : Nat
  InformationBuffer : List Nat
  deriving DecidableEq, Repr

/-- Modelled from the spec: what the transport and the device do during one
control exchange: the code the host-to-device transfer returns, the code the
device-to-host transfer returns, and the response bytes it delivers (the control
pipe and the device are external collaborators). -/
structure ControlExchange where
  SendCode : Nat
  GetCode : Nat
  Response : ControlResponse
  deriving DecidableEq, Repr

/-- What a control-plane operation leaves behind: the instance, the request it
handed to the transport, its return value and the caller's buffer. -/
structure ControlOutcome where
  Info : USB_ClassInfo_RNDIS_Host_t
  Sent : ControlRequest
  ReturnCode : Nat
  Buffer : List Nat
  deriving DecidableEq, Repr

/-- Modelled from the spec: `RNDIS_SendEncapsulatedCommand` (body in `RNDIS.c`):
issues the host-to-device control transfer and returns the transfer's code
verbatim, without interpreting the payload. -/
def RNDIS_SendEncapsulatedCommand (x : ControlExchange) (_req : ControlRequest) : Nat :=
  x.SendCode

/-- Modelled from the spec: `RNDIS_GetEncapsulatedResponse` (body in `RNDIS.c`):
issues the device-to-host control transfer and returns the transfer's code
verbatim together with the bytes received. The transfer is synchronous: it blocks
until completion or error, so one call stands for the wait for the response. -/
def RNDIS_GetEncapsulatedResponse (x : ControlExchange) : Nat × ControlResponse :=
  (x.GetCode, x.Response)

/-- Modelled from the spec: the freshly incremented request ID of the next request;
the counter `State.RequestID` is a `uint32_t` (declared in the header), so the
increment is modulo `2 ^ 32`. -/
def nextRequestID (info : USB_ClassInfo_RNDIS_Host_t) : Nat :=
  (info.State.RequestID + 1) % 2 ^ 32

/-- The instance with its request-ID counter advanced to the next request ID. -/
def withNextRequestID (info : USB_ClassInfo_RNDIS_Host_t) : USB_ClassInfo_RNDIS_Host_t :=
  { info with State := { info.State with RequestID := nextRequestID info } }

/-- Modelled from the spec: the failure taxonomy shared by the control-plane
operations (bodies in `RNDIS.c`): send the request, fetch the response; a transport
error code passes through unchanged; a response whose status field is non-zero
yields `RNDIS_COMMAND_FAILED`; a response whose request ID is not the one just sent
is a failure (reported with `RNDIS_COMMAND_FAILED`, the only non-transport value
the header documents for these functions); otherwise the transport's success code. -/
def exchangeResult (ok : Nat) (x : ControlExchange) (req : ControlRequest) : Nat :=
  if RNDIS_SendEncapsulatedCommand x req ≠ ok then RNDIS_SendEncapsulatedCommand x req
  else if (RNDIS_GetEncapsulatedResponse x).1 ≠ ok then (RNDIS_GetEncapsulatedResponse x).1
  else if (RNDIS_GetEncapsulatedResponse x).2.Status ≠ 0 then RNDIS_COMMAND_FAILED
  else if (RNDIS_GetEncapsulatedResponse x).2.RequestId ≠ req.RequestId then RNDIS_COMMAND_FAILED
  else ok

/-- Modelled from the spec: `RNDIS_Host_InitializeDevice` (body in `RNDIS.c`): builds
an INITIALIZE message with a freshly incremented request ID, sends it and fetches
the completion; on success stores the device's maximum packet size. -/
def RNDIS_Host_InitializeDevice (ok : Nat) (info : USB_ClassInfo_RNDIS_Host_t)
    (x : ControlExchange) : ControlOutcome :=
  let req : ControlRequest :=
    { Kind := .INITIALIZE, RequestId := nextRequestID info, Oid := 0, Payload := [] }
  let info1 := withNextRequestID info
  let code := exchangeResult ok x req
  if code = ok then
    { Info := { info1 with State := { info1.State with
                  DeviceMaxPacketSize := (RNDIS_GetEncapsulatedResponse x).2.MaxTransferSize } },
      Sent := req, ReturnCode := ok, Buffer := [] }
  else
    { Info := info1, Sent := req, ReturnCode := code, Buffer := [] }

/-- Modelled from the spec: `RNDIS_Host_SendKeepAlive` (body in `RNDIS.c`): a
request/response exchange with an empty payload, with the same request-ID
correlation and failure reporting as the other operations. -/
def RNDIS_Host_SendKeepAlive (ok : Nat) (info : USB_ClassInfo_RNDIS_Host_t)
    (x : ControlExchange) : ControlOutcome :=
  let req : ControlRequest :=
    { Kind := .KEEPALIVE, RequestId := nextRequestID info, Oid := 0, Payload := [] }
  { Info := withNextRequestID info, Sent := req, ReturnCode := exchangeResult ok x req,
    Buffer := [] }

/-- Modelled from the spec: `RNDIS_Host_SetRNDISProperty` (body in `RNDIS.c`): a SET
keyed by the OID (a `uint32_t`) carries the first `Length` (a `uint16_t`) bytes of the
caller's buffer outbound; the request ID is freshly incremented and matched on
completion. -/
def RNDIS_Host_SetRNDISProperty (ok : Nat) (info : USB_ClassInfo_RNDIS_Host_t)
    (Oid : Nat) (Buffer : List Nat) (Length : Nat) (x : ControlExchange) : ControlOutcome :=
  let req : ControlRequest :=
    { Kind := .SET, RequestId := nextRequestID info, Oid := Oid % 2 ^ 32,
      Payload := Buffer.take (Length % 2 ^ 16) }
  { Info := withNextRequestID info, Sent := req, ReturnCode := exchangeResult ok x req,
    Buffer := Buffer }

/-- Modelled from the spec: `RNDIS_Host_QueryRNDISProperty` (body in `RNDIS.c`): a
QUERY keyed by the OID returns the property value inbound, bounded by the caller's
`MaxLength`: a longer value is a failure, not a truncation, and leaves the buffer
as it was. -/
def RNDIS_Host_QueryRNDISProperty (ok : Nat) (info : USB_ClassInfo_RNDIS_Host_t)
    (Oid : Nat) (Buffer : List Nat) (MaxLength : Nat) (x : ControlExchange) : ControlOutcome :=
  let req : ControlRequest :=
    { Kind := .QUERY, RequestId := nextRequestID info, Oid := Oid % 2 ^ 32, Payload := [] }
  let info1 := withNextRequestID info
  let code := exchangeResult ok x req
  let value := (RNDIS_GetEncapsulatedResponse x).2.InformationBuffer
  if code = ok then
    if MaxLength % 2 ^ 16 < value.length then
      { Info := info1, Sent := req, ReturnCode := RNDIS_COMMAND_FAILED, Buffer := Buffer }
    else
      { Info := info1, Sent := req, ReturnCode := ok,
        Buffer := value ++ Buffer.drop value.length }
  else
    { Info := info1, Sent := req, ReturnCode := code, Buffer := Buffer }

/-- One call of the three operations of the request-ID monotonicity property,
with its arguments and the behaviour of the transport and device during it. -/
inductive ControlCall where
  | query (Oid : Nat) (Buffer : List Nat) (MaxLength : Nat) (x : ControlExchange)
  | set (Oid : Nat) (Buffer : List Nat) (Length : Nat) (x : ControlExchange)
  | keepAlive (x : ControlExchange)
  deriving DecidableEq, Repr

/-- Performs one call on the instance. -/
def ControlCall.run (ok : Nat) (info : USB_ClassInfo_RNDIS_Host_t) : ControlCall → ControlOutcome
  | .query Oid Buffer MaxLength x => RNDIS_Host_QueryRNDISProperty ok info Oid Buffer MaxLength x
  | .set Oid Buffer Length x => RNDIS_Host_SetRNDISProperty ok info Oid Buffer Length x
  | .keepAlive x => RNDIS_Host_SendKeepAlive ok info x

/-- Performs the calls one after the other on the same instance; returns the
request IDs of the requests sent, in order, and the instance after the last call. -/
def runCalls (ok : Nat) (info : USB_ClassInfo_RNDIS_Host_t) :
    List ControlCall → List Nat × USB_ClassInfo_RNDIS_Host_t
  | [] => ([], info)
  | c :: cs =>
    let r := c.run ok info
    let rest := runCalls ok r.Info cs
    (r.Sent.RequestId :: rest.1, rest.2)

/-! ## Data plane

The bodies of `RNDIS_Host_SendPacket` and `RNDIS_Host_ReadPacket` are in `RNDIS.c`
and the packet message structure is in `Common/RNDIS.h`; neither is part of the
sources. The definitions of this section follow the specification's description of
the data-plane framer. Bytes are natural numbers, a pipe is the list of bytes that
travels through it. -/

/-- Modelled from the spec: the codes of the stream transfer layer the two
data-plane operations return (`Pipe_Stream_RW_ErrorCodes_t`, declared in `USB.h`,
is not part of the sources): success, the fixed failure code of a call on an
inactive interface, the "no data" code, and the length error. -/
structure StreamCodes where
  Success : Nat
  NotActive : Nat
  NoData : Nat
  LengthError : Nat
  deriving DecidableEq, Repr

/-- Modelled from the spec: message type of a packet (data) message; the value is
the one of the RNDIS specification, which the on-wire format has to match. -/
def REMOTE_NDIS_PACKET_MSG : Nat := 1

/-- Modelled from the spec: the packet message header: message type, total length,
data offset, data length, and the out-of-band and per-packet-info fields the driver
leaves zero, each a 32-bit field in the order of the RNDIS specification
(`RNDIS_Packet_Message_t` of `Common/RNDIS.h` is not part of the sources). -/
structure RNDIS_Packet_Message_t where
  MessageType : Nat
  MessageLength : Nat
  DataOffset : Nat
  DataLength : Nat
  OOBDataOffset : Nat
  OOBDataLength : Nat
  NumOOBDataElements : Nat
  PerPacketInfoOffset : Nat
  PerPacketInfoLength : Nat
  VcHandle : Nat
  Reserved : Nat
  deriving DecidableEq, Repr

/-- Size in bytes of the packet message header: eleven 32-bit fields. -/
def RNDIS_PACKET_HEADER_SIZE : Nat := 11 * 4

/-- The four bytes of a 32-bit value, least significant first. -/
def le32 (n : Nat) : List Nat :=
  [n % 256, n / 2 ^ 8 % 256, n / 2 ^ 16 % 256, n / 2 ^ 24 % 256]

/-- The 32-bit value stored least significant byte first at offset `off`. -/
def readLE32 (bs : List Nat) (off : Nat) : Nat :=
  bs.getD off 0 + 2 ^ 8 * bs.getD (off + 1) 0 + 2 ^ 16 * bs.getD (off + 2) 0
    + 2 ^ 24 * bs.getD (off + 3) 0

/-- The bytes of a packet message header as they travel on the pipe. -/
def RNDIS_Packet_Message_t.toBytes (m : RNDIS_Packet_Message_t) : List Nat :=
  le32 m.MessageType ++ le32 m.MessageLength ++ le32 m.DataOffset ++ le32 m.DataLength ++
  le32 m.OOBDataOffset ++ le32 m.OOBDataLength ++ le32 m.NumOOBDataElements ++
  le32 m.PerPacketInfoOffset ++ le32 m.PerPacketInfoLength ++ le32 m.VcHandle ++
  le32 m.Reserved

/-- The packet message header read from the first bytes of a pipe. -/
def RNDIS_Packet_Message_t.ofBytes (bs : List Nat) : RNDIS_Packet_Message_t :=
  { MessageType := readLE32 bs 0, MessageLength := readLE32 bs 4,
    DataOffset := readLE32 bs 8, DataLength := readLE32 bs 12,
    OOBDataOffset := readLE32 bs 16, OOBDataLength := readLE32 bs 20,
    NumOOBDataElements := readLE32 bs 24, PerPacketInfoOffset := readLE32 bs 28,
    PerPacketInfoLength := readLE32 bs 32, VcHandle := readLE32 bs 36,
    Reserved := readLE32 bs 40 }

/-- Modelled from the spec: the bulk OUT pipe (an external collaborator): the code
its stream write returns. -/
structure BulkOUTPipe where
  WriteCode : Nat
  deriving DecidableEq, Repr

/-- Modelled from the spec: the bulk IN pipe (an external collaborator): the bytes
the device has made available, and the code the stream layer returns when a read
cannot be completed from them. -/
structure BulkINPipe where
  Pending : List Nat
  ReadError : Nat
  deriving DecidableEq, Repr

/-- What `RNDIS_Host_SendPacket` leaves behind: its return value and the bytes it
put on the bulk OUT pipe. -/
structure SendOutcome where
  ReturnCode : Nat
  Written : List Nat
  deriving DecidableEq, Repr

/-- What `RNDIS_Host_ReadPacket` leaves behind: its return value, the caller's
buffer and the value stored through `PacketLength`. -/
structure ReadOutcome where
  ReturnCode : Nat
  Buffer : List Nat
  PacketLength : Nat
  deriving DecidableEq, Repr

/-- Modelled from the spec: the header `RNDIS_Host_SendPacket` prepends: total
length = header + length, data offset = header size, data length = length, all
other fields zero. -/
def packetHeader (PacketLength : Nat) : RNDIS_Packet_Message_t :=
  { MessageType := REMOTE_NDIS_PACKET_MSG,
    MessageLength := RNDIS_PACKET_HEADER_SIZE + PacketLength,
    DataOffset := RNDIS_PACKET_HEADER_SIZE,
    DataLength := PacketLength,
    OOBDataOffset := 0, OOBDataLength := 0, NumOOBDataElements := 0,
    PerPacketInfoOffset := 0, PerPacketInfoLength := 0, VcHandle := 0, Reserved := 0 }

/-- Modelled from the spec: `RNDIS_Host_SendPacket` (body in `RNDIS.c`): on an
inactive interface fails at once with the fixed failure code; otherwise writes the
header followed by the first `PacketLength` bytes of the buffer to the bulk OUT pipe
and returns the code of the stream write (`PacketLength` is a `uint16_t`). -/
def RNDIS_Host_SendPacket (codes : StreamCodes) (info : USB_ClassInfo_RNDIS_Host_t)
    (pipe : BulkOUTPipe) (Buffer : List Nat) (PacketLength : Nat) : SendOutcome :=
  if info.State.IsActive = false then
    { ReturnCode := codes.NotActive, Written := [] }
  else if pipe.WriteCode = codes.Success then
    { ReturnCode := codes.Success,
      Written := (packetHeader (PacketLength % 2 ^ 16)).toBytes
                   ++ Buffer.take (PacketLength % 2 ^ 16) }
  else
    { ReturnCode := pipe.WriteCode, Written := [] }

/-- Modelled from the spec: the header validation of `RNDIS_Host_ReadPacket`: data
offset and data length are consistent with the negotiated buffer size (the data
starts after the header, and offset plus length, which is header size plus data
length for a packet without out-of-band data, does not exceed the size the host can
buffer). -/
def headerConsistent (info : USB_ClassInfo_RNDIS_Host_t) (m : RNDIS_Packet_Message_t) : Bool :=
  decide (RNDIS_PACKET_HEADER_SIZE ≤ m.DataOffset) &&
  decide (m.DataOffset + m.DataLength ≤ info.Config.HostMaxPacketSize)

/-- Modelled from the spec: `RNDIS_Host_ReadPacket` (body in `RNDIS.c`): on an
inactive interface fails at once with the fixed failure code; with no packet pending
returns the "no data" code; otherwise reads the packet message header from the
bulk IN pipe, validates it, strips it (skipping to the data offset), copies the
payload only into the caller's buffer and stores the payload length (a `uint16_t`)
through `PacketLength`. A read the pending bytes cannot complete returns the
stream layer's code. On every failure the buffer and the stored length are as
before. -/
def RNDIS_Host_ReadPacket (codes : StreamCodes) (info : USB_ClassInfo_RNDIS_Host_t)
    (pipe : BulkINPipe) (Buffer : List Nat) (PacketLength : Nat) : ReadOutcome :=
  if info.State.IsActive = false then
    { ReturnCode := codes.NotActive, Buffer := Buffer, PacketLength := PacketLength }
  else if pipe.Pending = [] then
    { ReturnCode := codes.NoData, Buffer := Buffer, PacketLength := PacketLength }
  else if pipe.Pending.length < RNDIS_PACKET_HEADER_SIZE then
    { ReturnCode := pipe.ReadError, Buffer := Buffer, PacketLength := PacketLength }
  else
    let m := RNDIS_Packet_Message_t.ofBytes (pipe.Pending.take RNDIS_PACKET_HEADER_SIZE)
    if headerConsistent info m = false then
      { ReturnCode := codes.LengthError, Buffer := Buffer, PacketLength := PacketLength }
    else if pipe.Pending.length < m.DataOffset + m.DataLength then
      { ReturnCode := pipe.ReadError, Buffer := Buffer, PacketLength := PacketLength }
    else
      let payload := (pipe.Pending.drop m.DataOffset).take m.DataLength
      { ReturnCode := codes.Success,
        Buffer := payload ++ Buffer.drop payload.length,
        PacketLength := m.DataLength % 2 ^ 16 }

/-! ## Descriptor scanner and pipe configurator

The body of `RNDIS_Host_ConfigurePipes` and of the three descriptor comparators the
header declares is in `RNDIS.c`, and the descriptor layouts are in the USB core
headers; neither is part of the sources. The definitions of this section follow the
specification's description of the descriptor scanner and the pipe configurator.
A descriptor is the list of its bytes; as in every USB descriptor its first byte is
its length and its second byte its type. -/

/-- Modelled from the spec: descriptor type of a configuration descriptor (USB
core headers are not part of the sources; the value is the USB standard one). -/
def DTYPE_Configuration : Nat := 0x02
/-- Modelled from the spec: descriptor type of an interface descriptor (USB
standard value; the USB core headers are not part of the sources). -/
def DTYPE_Interface : Nat := 0x04
/-- Modelled from the spec: descriptor type of an endpoint descriptor (USB
standard value; the USB core headers are not part of the sources). -/
def DTYPE_Endpoint : Nat := 0x05
/-- Modelled from the spec: direction bit of an endpoint address, set for IN
(USB standard value; the USB core headers are not part of the sources). -/
def ENDPOINT_DESCRIPTOR_DIR_IN : Nat := 0x80
/-- Modelled from the spec: mask of the transfer type in an endpoint's attributes
(USB standard value; the USB core headers are not part of the sources). -/
def EP_TYPE_MASK : Nat := 0x03
/-- Modelled from the spec: transfer type of a bulk endpoint (USB standard value;
the USB core headers are not part of the sources). -/
def EP_TYPE_BULK : Nat := 0x02
/-- Modelled from the spec: transfer type of an interrupt endpoint (USB standard
value; the USB core headers are not part of the sources). -/
def EP_TYPE_INTERRUPT : Nat := 0x03

/-- The length byte of a descriptor. -/
def DESCRIPTOR_SIZE (d : List Nat) : Nat := d.getD 0 0
/-- The type byte of a descriptor. -/
def DESCRIPTOR_TYPE (d : List Nat) : Nat := d.getD 1 0

/-- Interface descriptor fields (USB standard layout). -/
def InterfaceNumber (d : List Nat) : Nat := d.getD 2 0
def InterfaceClass (d : List Nat) : Nat := d.getD 5 0
def InterfaceSubClass (d : List Nat) : Nat := d.getD 6 0
def InterfaceProtocol (d : List Nat) : Nat := d.getD 7 0

/-- Endpoint descriptor fields (USB standard layout). -/
def EndpointAddress (d : List Nat) : Nat := d.getD 2 0
def EndpointAttributes (d : List Nat) : Nat := d.getD 3 0
def EndpointSize (d : List Nat) : Nat := d.getD 4 0 + 2 ^ 8 * d.getD 5 0

/-- The descriptor is an interface descriptor. -/
def isInterface (d : List Nat) : Bool := DESCRIPTOR_TYPE d == DTYPE_Interface
/-- The descriptor is an endpoint descriptor. -/
def isEndpoint (d : List Nat) : Bool := DESCRIPTOR_TYPE d == DTYPE_Endpoint

/-- Modelled from the spec: a descriptor holds every field the scanner reads from
it: a configuration or interface descriptor has at least nine bytes, an endpoint
descriptor at least seven. -/
def hasRequiredFields (d : List Nat) : Bool :=
  if DESCRIPTOR_TYPE d = DTYPE_Configuration ∨ DESCRIPTOR_TYPE d = DTYPE_Interface then
    decide (9 ≤ d.length)
  else if DESCRIPTOR_TYPE d = DTYPE_Endpoint then decide (7 ≤ d.length)
  else true

/-- Modelled from the spec: the comparator `DCOMP_RNDIS_Host_NextRNDISControlInterface`
(prototype in the header, body in `RNDIS.c`): an interface descriptor whose class,
subclass and protocol are those of the RNDIS control interface. -/
def DCOMP_RNDIS_Host_NextRNDISControlInterface (d : List Nat) : Bool :=
  isInterface d &&
    decide ((InterfaceClass d, InterfaceSubClass d, InterfaceProtocol d) = controlSignature)

/-- Modelled from the spec: the comparator `DCOMP_RNDIS_Host_NextRNDISDataInterface`
(prototype in the header, body in `RNDIS.c`): an interface descriptor whose class,
subclass and protocol are those of the RNDIS data interface. -/
def DCOMP_RNDIS_Host_NextRNDISDataInterface (d : List Nat) : Bool :=
  isInterface d &&
    decide ((InterfaceClass d, InterfaceSubClass d, InterfaceProtocol d) = dataSignature)

/-- Modelled from the spec: the comparator `DCOMP_RNDIS_Host_NextRNDISInterfaceEndpoint`
(prototype in the header, body in `RNDIS.c`): an endpoint descriptor. -/
def DCOMP_RNDIS_Host_NextRNDISInterfaceEndpoint (d : List Nat) : Bool :=
  isEndpoint d

/-- The endpoint is an IN endpoint. -/
def endpointIsIN (d : List Nat) : Bool :=
  EndpointAddress d &&& ENDPOINT_DESCRIPTOR_DIR_IN != 0

/-- Modelled from the spec: the notification endpoint: an interrupt IN endpoint. -/
def isNotificationEndpoint (d : List Nat) : Bool :=
  DCOMP_RNDIS_Host_NextRNDISInterfaceEndpoint d &&
    (EndpointAttributes d &&& EP_TYPE_MASK == EP_TYPE_INTERRUPT) && endpointIsIN d

/-- Modelled from the spec: the data IN endpoint: a bulk IN endpoint. -/
def isDataINEndpoint (d : List Nat) : Bool :=
  DCOMP_RNDIS_Host_NextRNDISInterfaceEndpoint d &&
    (EndpointAttributes d &&& EP_TYPE_MASK == EP_TYPE_BULK) && endpointIsIN d

/-- Modelled from the spec: the data OUT endpoint: a bulk OUT endpoint. -/
def isDataOUTEndpoint (d : List Nat) : Bool :=
  DCOMP_RNDIS_Host_NextRNDISInterfaceEndpoint d &&
    (EndpointAttributes d &&& EP_TYPE_MASK == EP_TYPE_BULK) && !endpointIsIN d

/-- Modelled from the spec: walking the raw buffer from descriptor to descriptor:
each descriptor's first byte is its length. A length below two (no room for length
and type) or beyond the end of the buffer makes the buffer malformed. `fuel` bounds
the number of descriptors; the buffer's length always suffices. -/
def splitDescriptors : Nat → List Nat → Option (List (List Nat))
  | _, [] => some []
  | 0, _ :: _ => none
  | fuel + 1, len :: rest =>
    if len < 2 ∨ (len :: rest).length < len then none
    else (splitDescriptors fuel ((len :: rest).drop len)).map
      (fun ds => (len :: rest).take len :: ds)

/-- Modelled from the spec: the entries of a configuration descriptor buffer, or
nothing when the buffer is malformed or exhausted before a required field: the
buffer starts with a configuration descriptor, splits into descriptors, and every
descriptor holds the fields read from it. -/
def parseConfigDescriptor (buf : List Nat) : Option (List (List Nat)) :=
  match splitDescriptors buf.length buf with
  | none => none
  | some [] => none
  | some (cfg :: ds) =>
    if DESCRIPTOR_TYPE cfg = DTYPE_Configuration ∧ (cfg :: ds).all hasRequiredFields then
      some (cfg :: ds)
    else none

/-- What the descriptor scanner finds: the control interface's number and the
descriptors of the endpoints it classified. -/
structure ScanResult where
  ControlInterfaceNumber : Nat
  NotificationIN : Option (List Nat)
  DataIN : Option (List Nat)
  DataOUT : Option (List Nat)
  deriving DecidableEq, Repr

/-- The found-endpoint bitmask of a scan: one flag per endpoint found. -/
def ScanResult.FoundEndpoints (r : ScanResult) : Nat :=
  (if r.DataIN.isSome then RNDIS_FOUND_DATAPIPE_IN else 0) |||
  (if r.DataOUT.isSome then RNDIS_FOUND_DATAPIPE_OUT else 0) |||
  (if r.NotificationIN.isSome then RNDIS_FOUND_NOTIFICATION_IN else 0)

/-- The descriptors of an interface's extent: those up to the next interface
descriptor. -/
def interfaceExtent (ds : List (List Nat)) : List (List Nat) :=
  ds.takeWhile (fun d => !isInterface d)

/-- Modelled from the spec: the scan over the entries: find the first interface
matching the control signature (none: nothing is returned); within its extent
classify the interrupt IN endpoint as the notification endpoint; continue to the
next data interface and within its extent classify the bulk IN and bulk OUT
endpoints. -/
def scanDescriptors (ds : List (List Nat)) : Option ScanResult :=
  match ds.dropWhile (fun d => !DCOMP_RNDIS_Host_NextRNDISControlInterface d) with
  | [] => none
  | ctrl :: rest =>
    let notif := (interfaceExtent rest).find? isNotificationEndpoint
    match rest.dropWhile (fun d => !DCOMP_RNDIS_Host_NextRNDISDataInterface d) with
    | [] =>
      some { ControlInterfaceNumber := InterfaceNumber ctrl, NotificationIN := notif,
             DataIN := none, DataOUT := none }
    | _ :: rest2 =>
      some { ControlInterfaceNumber := InterfaceNumber ctrl, NotificationIN := notif,
             DataIN := (interfaceExtent rest2).find? isDataINEndpoint,
             DataOUT := (interfaceExtent rest2).find? isDataOUTEndpoint }

/-- Modelled from the spec: the pipe layer of the host controller (an external
collaborator): whether binding the pipe with the given number to the given endpoint
address, with the given size and banking, succeeds. -/
structure PipeHost where
  ConfigurePipe : Nat → Nat → Nat → Bool → Bool

/-- What `RNDIS_Host_ConfigurePipes` leaves behind: the instance, its return value
and the found-endpoint bitmask at the point of return. -/
structure ConfigureOutcome where
  Info : USB_ClassInfo_RNDIS_Host_t
  ReturnCode : Nat
  FoundEndpoints : Nat
  deriving DecidableEq, Repr

/-- The instance marked inactive. -/
def inactive (info : USB_ClassInfo_RNDIS_Host_t) : USB_ClassInfo_RNDIS_Host_t :=
  { info with State := { info.State with IsActive := false } }

/-- Modelled from the spec: `RNDIS_Host_ConfigurePipes` (body in `RNDIS.c`): scans
the first `ConfigDescriptorSize` bytes of the buffer (the size is a `uint16_t`); a malformed buffer gives
`InvalidConfigDescriptor`, no control interface `NoRNDISInterfaceFound`, a missing
endpoint `EndpointsNotFound`; once all three bits are set the pipes are bound to the
three endpoints (a failing allocation gives `EndpointsNotFound` and an inactive
state), the pipe sizes and the control interface number are recorded and the
interface becomes active. -/
def RNDIS_Host_ConfigurePipes (host : PipeHost) (info : USB_ClassInfo_RNDIS_Host_t)
    (ConfigDescriptorSize : Nat) (DeviceConfigDescriptor : List Nat) : ConfigureOutcome :=
  match parseConfigDescriptor (DeviceConfigDescriptor.take (ConfigDescriptorSize % 2 ^ 16)) with
  | none =>
    { Info := inactive info, ReturnCode := RNDIS_ENUMERROR_InvalidConfigDescriptor,
      FoundEndpoints := 0 }
  | some ds =>
    match scanDescriptors ds with
    | none =>
      { Info := inactive info, ReturnCode := RNDIS_ENUMERROR_NoRNDISInterfaceFound,
        FoundEndpoints := 0 }
    | some r =>
      match r.NotificationIN, r.DataIN, r.DataOUT with
      | some notif, some dataIn, some dataOut =>
        if host.ConfigurePipe info.Config.NotificationPipeNumber (EndpointAddress notif)
              (EndpointSize notif) info.Config.NotificationPipeDoubleBank
            && host.ConfigurePipe info.Config.DataINPipeNumber (EndpointAddress dataIn)
              (EndpointSize dataIn) info.Config.DataINPipeDoubleBank
            && host.ConfigurePipe info.Config.DataOUTPipeNumber (EndpointAddress dataOut)
              (EndpointSize dataOut) info.Config.DataOUTPipeDoubleBank then
          { Info := { info with State := { info.State with
                        IsActive := true,
                        ControlInterfaceNumber := r.ControlInterfaceNumber,
                        DataINPipeSize := EndpointSize dataIn,
                        DataOUTPipeSize := EndpointSize dataOut,
                        NotificationPipeSize := EndpointSize notif } },
            ReturnCode := RNDIS_ENUMERROR_NoError,
            FoundEndpoints := r.FoundEndpoints }
        else
          { Info := inactive info, ReturnCode := RNDIS_ENUMERROR_EndpointsNotFound,
            FoundEndpoints := r.FoundEndpoints }
      | _, _, _ =>
        { Info := inactive info, ReturnCode := RNDIS_ENUMERROR_EndpointsNotFound,
          FoundEndpoints := r.FoundEndpoints }

/-- A well-formed descriptor: its first byte is its length, it has room for the
length and type bytes, and it holds every field read from a descriptor of its
type. -/
def WellFormedDescriptor (d : List Nat) : Prop :=
  2 ≤ d.length ∧ DESCRIPTOR_SIZE d = d.length ∧ hasRequiredFields d = true

instance : DecidablePred WellFormedDescriptor := fun d => by
  unfold WellFormedDescriptor
  infer_instance

/-! ## Helper lemmas -/

theorem foldl_or_flag_lt (S : List FoundEndpoint) (m : Nat) (hm : m < 8) :
    S.foldl (fun m e => m ||| e.flag) m < 8 := by
  induction S generalizing m with
  | nil => simpa using hm
  | cons e S ih =>
    simp only [List.foldl_cons]
    apply ih
    interval_cases m <;> cases e <;> decide

theorem foldl_or_flag_bit (S : List FoundEndpoint) (m : Nat) (hm : m < 8)
    (e : FoundEndpoint) :
    (S.foldl (fun m e => m ||| e.flag) m) &&& e.flag ≠ 0 ↔ (m &&& e.flag ≠ 0 ∨ e ∈ S) := by
  induction S generalizing m with
  | nil => simp
  | cons a S ih =>
    simp only [List.foldl_cons, List.mem_cons]
    have hlt : m ||| a.flag < 8 := by
      interval_cases m <;> cases a <;> decide
    rw [ih _ hlt]
    have hstep : ((m ||| a.flag) &&& e.flag ≠ 0) ↔ (m &&& e.flag ≠ 0 ∨ e = a) := by
      interval_cases m <;> cases a <;> cases e <;> decide
    rw [hstep]
    tauto

theorem mask_eq_all_iff (m : Nat) (hm : m < 8) :
    m = allEndpointsFound ↔ ∀ e : FoundEndpoint, m &&& e.flag ≠ 0 := by
  constructor
  · intro h e
    subst h
    cases e <;> decide
  · intro h
    have h1 := h .dataIN
    have h2 := h .dataOUT
    have h3 := h .notificationIN
    interval_cases m <;> revert h1 h2 h3 <;> decide

theorem run_sent_requestId (ok : Nat) (info : USB_ClassInfo_RNDIS_Host_t) (c : ControlCall) :
    (c.run ok info).Sent.RequestId = nextRequestID info := by
  cases c
  all_goals simp only [ControlCall.run, RNDIS_Host_QueryRNDISProperty,
    RNDIS_Host_SetRNDISProperty, RNDIS_Host_SendKeepAlive]
  all_goals repeat' split
  all_goals rfl

theorem run_counter (ok : Nat) (info : USB_ClassInfo_RNDIS_Host_t) (c : ControlCall) :
    (c.run ok info).Info.State.RequestID = nextRequestID info := by
  cases c
  all_goals simp only [ControlCall.run, RNDIS_Host_QueryRNDISProperty,
    RNDIS_Host_SetRNDISProperty, RNDIS_Host_SendKeepAlive]
  all_goals repeat' split
  all_goals rfl

theorem runCalls_spec (ok : Nat) (cs : List ControlCall) (info : USB_ClassInfo_RNDIS_Host_t) :
    (runCalls ok info cs).1 =
      (List.range cs.length).map (fun i => (info.State.RequestID + 1 + i) % 2 ^ 32) ∧
    (runCalls ok info cs).2.State.RequestID =
      if cs = [] then info.State.RequestID
      else (info.State.RequestID + cs.length) % 2 ^ 32 := by
  induction cs generalizing info with
  | nil => simp [runCalls]
  | cons c cs ih =>
    obtain ⟨ih1, ih2⟩ := ih (c.run ok info).Info
    simp only [runCalls, List.length_cons, List.range_succ_eq_map, List.map_cons, List.map_map]
    refine ⟨?_, ?_⟩
    · rw [ih1, run_sent_requestId, run_counter]
      simp only [nextRequestID, Nat.add_zero, List.cons.injEq, true_and]
      apply List.map_congr_left
      intro i _
      simp only [Function.comp, Nat.succ_eq_add_one]
      omega
    · rw [ih2, run_counter]
      simp only [nextRequestID, reduceCtorEq, if_false]
      split
      · next h => subst h; simp
      · omega

theorem toBytes_length (m : RNDIS_Packet_Message_t) :
    m.toBytes.length = RNDIS_PACKET_HEADER_SIZE := by
  simp [RNDIS_Packet_Message_t.toBytes, le32, RNDIS_PACKET_HEADER_SIZE]

theorem le32_value (n : Nat) (h : n < 2 ^ 32) :
    n % 256 + 2 ^ 8 * (n / 2 ^ 8 % 256) + 2 ^ 16 * (n / 2 ^ 16 % 256)
      + 2 ^ 24 * (n / 2 ^ 24 % 256) = n := by
  omega

theorem ofBytes_toBytes (m : RNDIS_Packet_Message_t)
    (h : m.MessageType < 2 ^ 32 ∧ m.MessageLength < 2 ^ 32 ∧ m.DataOffset < 2 ^ 32 ∧
      m.DataLength < 2 ^ 32 ∧ m.OOBDataOffset < 2 ^ 32 ∧ m.OOBDataLength < 2 ^ 32 ∧
      m.NumOOBDataElements < 2 ^ 32 ∧ m.PerPacketInfoOffset < 2 ^ 32 ∧
      m.PerPacketInfoLength < 2 ^ 32 ∧ m.VcHandle < 2 ^ 32 ∧ m.Reserved < 2 ^ 32) :
    RNDIS_Packet_Message_t.ofBytes m.toBytes = m := by
  obtain ⟨h1, h2, h3, h4, h5, h6, h7, h8, h9, h10, h11⟩ := h
  cases m
  simp only [RNDIS_Packet_Message_t.ofBytes, RNDIS_Packet_Message_t.toBytes, le32, readLE32,
    List.cons_append, List.nil_append, List.getD_cons_zero, List.getD_cons_succ,
    RNDIS_Packet_Message_t.mk.injEq] at *
  refine ⟨?_, ?_, ?_, ?_, ?_, ?_, ?_, ?_, ?_, ?_, ?_⟩ <;> apply le32_value <;> assumption

theorem packetHeader_fields_lt (n : Nat) (h : n < 2 ^ 16) :
    (packetHeader n).MessageType < 2 ^ 32 ∧ (packetHeader n).MessageLength < 2 ^ 32 ∧
    (packetHeader n).DataOffset < 2 ^ 32 ∧ (packetHeader n).DataLength < 2 ^ 32 ∧
    (packetHeader n).OOBDataOffset < 2 ^ 32 ∧ (packetHeader n).OOBDataLength < 2 ^ 32 ∧
    (packetHeader n).NumOOBDataElements < 2 ^ 32 ∧ (packetHeader n).PerPacketInfoOffset < 2 ^ 32 ∧
    (packetHeader n).PerPacketInfoLength < 2 ^ 32 ∧ (packetHeader n).VcHandle < 2 ^ 32 ∧
    (packetHeader n).Reserved < 2 ^ 32 := by
  simp only [packetHeader, REMOTE_NDIS_PACKET_MSG, RNDIS_PACKET_HEADER_SIZE]
  omega

theorem splitDescriptors_cons (fuel len : Nat) (rest : List Nat) :
    splitDescriptors (fuel + 1) (len :: rest) =
      if len < 2 ∨ (len :: rest).length < len then none
      else (splitDescriptors fuel ((len :: rest).drop len)).map
        (fun ds => (len :: rest).take len :: ds) := rfl

theorem splitDescriptors_flatten (ds : List (List Nat))
    (hwf : ∀ d ∈ ds, 2 ≤ d.length ∧ DESCRIPTOR_SIZE d = d.length) (fuel : Nat)
    (hfuel : ds.flatten.length ≤ fuel) :
    splitDescriptors fuel ds.flatten = some ds := by
  induction ds generalizing fuel with
  | nil => cases fuel <;> rfl
  | cons d ds ih =>
    obtain ⟨h2, hsz⟩ := hwf d (List.mem_cons_self d ds)
    have hrest : ∀ e ∈ ds, 2 ≤ e.length ∧ DESCRIPTOR_SIZE e = e.length :=
      fun e he => hwf e (List.mem_cons_of_mem d he)
    cases d with
    | nil => simp at h2
    | cons len tail =>
      have hlen : len = (len :: tail).length := by
        simpa [DESCRIPTOR_SIZE] using hsz
      simp only [List.flatten_cons, List.length_append] at hfuel
      cases fuel with
      | zero => omega
      | succ fuel =>
        have hdrop : (len :: (tail ++ ds.flatten)).drop len = ds.flatten := by
          have h := List.drop_left (len :: tail) ds.flatten
          rw [← hlen] at h
          exact h
        have htake : (len :: (tail ++ ds.flatten)).take len = len :: tail := by
          have h := List.take_left (len :: tail) ds.flatten
          rw [← hlen] at h
          exact h
        have hcond : ¬ (len < 2 ∨ (len :: (tail ++ ds.flatten)).length < len) := by
          simp only [List.length_cons, List.length_append] at hlen h2 ⊢
          omega
        show splitDescriptors (fuel + 1) (len :: (tail ++ ds.flatten)) = _
        rw [splitDescriptors_cons, if_neg hcond, hdrop, htake, ih hrest fuel (by omega)]
        rfl

theorem parseConfigDescriptor_flatten (cfg : List Nat) (ds : List (List Nat))
    (hcfg : DESCRIPTOR_TYPE cfg = DTYPE_Configuration)
    (hwf : ∀ d ∈ cfg :: ds, WellFormedDescriptor d) :
    parseConfigDescriptor (cfg :: ds).flatten = some (cfg :: ds) := by
  have hsplit := splitDescriptors_flatten (cfg :: ds)
    (fun d hd => ⟨(hwf d hd).1, (hwf d hd).2.1⟩) _ (le_refl _)
  have hall : (cfg :: ds).all hasRequiredFields = true := by
    rw [List.all_eq_true]
    exact fun d hd => (hwf d hd).2.2
  simp only [parseConfigDescriptor, hsplit]
  rw [if_pos ⟨hcfg, hall⟩]

theorem not_interface_not_control (d : List Nat) (h : isInterface d = false) :
    DCOMP_RNDIS_Host_NextRNDISControlInterface d = false := by
  simp [DCOMP_RNDIS_Host_NextRNDISControlInterface, h]

theorem not_interface_not_data (d : List Nat) (h : isInterface d = false) :
    DCOMP_RNDIS_Host_NextRNDISDataInterface d = false := by
  simp [DCOMP_RNDIS_Host_NextRNDISDataInterface, h]

theorem data_is_interface (d : List Nat) (h : DCOMP_RNDIS_Host_NextRNDISDataInterface d = true) :
    isInterface d = true := by
  simp only [DCOMP_RNDIS_Host_NextRNDISDataInterface, Bool.and_eq_true] at h
  exact h.1

theorem find?_append_of_some {α : Type} (p : α → Bool) (l₁ l₂ : List α) (y : α)
    (h : l₁.find? p = some y) : (l₁ ++ l₂).find? p = some y := by
  rw [List.find?_append, h]
  rfl

theorem scanDescriptors_shape (cfg ctrl dataIf notif dataIn dataOut : List Nat)
    (pre cext dext post : List (List Nat))
    (hcfg : DESCRIPTOR_TYPE cfg = DTYPE_Configuration)
    (hpre : ∀ d ∈ pre, DCOMP_RNDIS_Host_NextRNDISControlInterface d = false)
    (hctrl : DCOMP_RNDIS_Host_NextRNDISControlInterface ctrl = true)
    (hcext : ∀ d ∈ cext, isInterface d = false)
    (hnotif : cext.find? isNotificationEndpoint = some notif)
    (hdata : DCOMP_RNDIS_Host_NextRNDISDataInterface dataIf = true)
    (hdext : ∀ d ∈ dext, isInterface d = false)
    (hin : dext.find? isDataINEndpoint = some dataIn)
    (hout : dext.find? isDataOUTEndpoint = some dataOut) :
    scanDescriptors (cfg :: (pre ++ ctrl :: (cext ++ dataIf :: (dext ++ post))))
      = some { ControlInterfaceNumber := InterfaceNumber ctrl, NotificationIN := some notif,
               DataIN := some dataIn, DataOUT := some dataOut } := by
  have hcfg' : DCOMP_RNDIS_Host_NextRNDISControlInterface cfg = false := by
    apply not_interface_not_control
    simp [isInterface, hcfg, DTYPE_Configuration, DTYPE_Interface]
  have h1 : (cfg :: (pre ++ ctrl :: (cext ++ dataIf :: (dext ++ post)))).dropWhile
      (fun d => !DCOMP_RNDIS_Host_NextRNDISControlInterface d)
      = ctrl :: (cext ++ dataIf :: (dext ++ post)) := by
    rw [List.dropWhile_cons_of_pos (by simp [hcfg'])]
    rw [List.dropWhile_append_of_pos (by intro a ha; simp [hpre a ha])]
    rw [List.dropWhile_cons_of_neg (by simp [hctrl])]
  have hdi := data_is_interface dataIf hdata
  have h2 : interfaceExtent (cext ++ dataIf :: (dext ++ post)) = cext := by
    unfold interfaceExtent
    rw [List.takeWhile_append_of_pos (by intro a ha; simp [hcext a ha])]
    rw [List.takeWhile_cons_of_neg (by simp [hdi])]
    simp
  have h3 : (cext ++ dataIf :: (dext ++ post)).dropWhile
      (fun d => !DCOMP_RNDIS_Host_NextRNDISDataInterface d) = dataIf :: (dext ++ post) := by
    rw [List.dropWhile_append_of_pos
      (by intro a ha; simp [not_interface_not_data a (hcext a ha)])]
    rw [List.dropWhile_cons_of_neg (by simp [hdata])]
  have h4 : interfaceExtent (dext ++ post) = dext ++ interfaceExtent post := by
    unfold interfaceExtent
    rw [List.takeWhile_append_of_pos (by intro a ha; simp [hdext a ha])]
  have hi := find?_append_of_some isDataINEndpoint dext (interfaceExtent post) dataIn hin
  have ho := find?_append_of_some isDataOUTEndpoint dext (interfaceExtent post) dataOut hout
  simp only [scanDescriptors, h1, h2, h3, h4, hnotif, hi, ho]

/-! ## Theorems -/
/-- C1: for each of the four control-plane operations and every device response:
when both control transfers return the transport's success code and the response's
status field is non-zero, the operation returns RNDIS_COMMAND_FAILED (0xC0), which
is not the transport's success code as long as that code is not 0xC0 itself. -/
theorem nonzero_status_command_failed (ok : Nat) (info : USB_ClassInfo_RNDIS_Host_t)
    (x : ControlExchange) (Oid : Nat) (Buffer : List Nat) (Length MaxLength : Nat)
    (hsend : x.SendCode = ok) (hget : x.GetCode = ok) (hstatus : x.Response.Status ≠ 0) :
    ((RNDIS_Host_InitializeDevice ok info x).ReturnCode = RNDIS_COMMAND_FAILED ∧
     (RNDIS_Host_SendKeepAlive ok info x).ReturnCode = RNDIS_COMMAND_FAILED ∧
     (RNDIS_Host_SetRNDISProperty ok info Oid Buffer Length x).ReturnCode = RNDIS_COMMAND_FAILED ∧
     (RNDIS_Host_QueryRNDISProperty ok info Oid Buffer MaxLength x).ReturnCode
        = RNDIS_COMMAND_FAILED) ∧
    RNDIS_COMMAND_FAILED = 0xC0 ∧
    (ok ≠ RNDIS_COMMAND_FAILED →
      (RNDIS_Host_InitializeDevice ok info x).ReturnCode ≠ ok ∧
      (RNDIS_Host_SendKeepAlive ok info x).ReturnCode ≠ ok ∧
      (RNDIS_Host_SetRNDISProperty ok info Oid Buffer Length x).ReturnCode ≠ ok ∧
      (RNDIS_Host_QueryRNDISProperty ok info Oid Buffer MaxLength x).ReturnCode ≠ ok) := by
  have hx : ∀ req : ControlRequest, exchangeResult ok x req = RNDIS_COMMAND_FAILED := by
    intro req
    simp [exchangeResult, RNDIS_SendEncapsulatedCommand, RNDIS_GetEncapsulatedResponse,
      hsend, hget, hstatus]
  have h4 : (RNDIS_Host_InitializeDevice ok info x).ReturnCode = RNDIS_COMMAND_FAILED ∧
     (RNDIS_Host_SendKeepAlive ok info x).ReturnCode = RNDIS_COMMAND_FAILED ∧
     (RNDIS_Host_SetRNDISProperty ok info Oid Buffer Length x).ReturnCode = RNDIS_COMMAND_FAILED ∧
     (RNDIS_Host_QueryRNDISProperty ok info Oid Buffer MaxLength x).ReturnCode
        = RNDIS_COMMAND_FAILED := by
    refine ⟨?_, ?_, ?_, ?_⟩
    · simp only [RNDIS_Host_InitializeDevice, hx]
      split
      · next h => exact h.symm
      · rfl
    · simp only [RNDIS_Host_SendKeepAlive, hx]
    · simp only [RNDIS_Host_SetRNDISProperty, hx]
    · simp only [RNDIS_Host_QueryRNDISProperty, hx]
      split
      · split
        · rfl
        · next h _ => exact h.symm
      · rfl
  refine ⟨h4, rfl, ?_⟩
  intro hok
  obtain ⟨a, b, c, d⟩ := h4
  rw [a, b, c, d]
  exact ⟨hok.symm, hok.symm, hok.symm, hok.symm⟩

/-- Witness of C1: a device answering a keep-alive and the other requests with
status 1 over a transport whose success code is 0. -/
theorem nonzero_status_command_failed_witness :
    (RNDIS_Host_InitializeDevice 0 ⟨⟨1, false, 2, false, 3, false, 1514⟩,
        ⟨true, 0, 64, 64, 8, 0, 41⟩⟩ ⟨0, 0, ⟨42, 1, 1514, [1, 2]⟩⟩).ReturnCode = 0xC0 ∧
    (RNDIS_Host_SendKeepAlive 0 ⟨⟨1, false, 2, false, 3, false, 1514⟩,
        ⟨true, 0, 64, 64, 8, 0, 41⟩⟩ ⟨0, 0, ⟨42, 1, 1514, [1, 2]⟩⟩).ReturnCode = 0xC0 := by
  have h := nonzero_status_command_failed 0 ⟨⟨1, false, 2, false, 3, false, 1514⟩,
        ⟨true, 0, 64, 64, 8, 0, 41⟩⟩ ⟨0, 0, ⟨42, 1, 1514, [1, 2]⟩⟩ 7 [9] 1 6 rfl rfl (by decide)
  exact ⟨h.1.1, h.1.2.1⟩

/-- C4: for each of the four control-plane operations and every device response
whose request ID differs from the ID of the request the operation just sent, the
operation does not return the transport's success code, whatever the transfers
return and whatever the status field is; the stored device maximum packet size and
the caller's buffer are left as they were. -/
theorem mismatched_request_id_fails (ok : Nat) (info : USB_ClassInfo_RNDIS_Host_t)
    (x : ControlExchange) (Oid : Nat) (Buffer : List Nat) (Length MaxLength : Nat)
    (hok : ok ≠ RNDIS_COMMAND_FAILED)
    (hinit : x.Response.RequestId ≠ (RNDIS_Host_InitializeDevice ok info x).Sent.RequestId)
    (hkeep : x.Response.RequestId ≠ (RNDIS_Host_SendKeepAlive ok info x).Sent.RequestId)
    (hset : x.Response.RequestId ≠
      (RNDIS_Host_SetRNDISProperty ok info Oid Buffer Length x).Sent.RequestId)
    (hquery : x.Response.RequestId ≠
      (RNDIS_Host_QueryRNDISProperty ok info Oid Buffer MaxLength x).Sent.RequestId) :
    (RNDIS_Host_InitializeDevice ok info x).ReturnCode ≠ ok ∧
    (RNDIS_Host_SendKeepAlive ok info x).ReturnCode ≠ ok ∧
    (RNDIS_Host_SetRNDISProperty ok info Oid Buffer Length x).ReturnCode ≠ ok ∧
    (RNDIS_Host_QueryRNDISProperty ok info Oid Buffer MaxLength x).ReturnCode ≠ ok ∧
    (RNDIS_Host_InitializeDevice ok info x).Info.State.DeviceMaxPacketSize
      = info.State.DeviceMaxPacketSize ∧
    (RNDIS_Host_QueryRNDISProperty ok info Oid Buffer MaxLength x).Buffer = Buffer := by
  have hx : ∀ req : ControlRequest, x.Response.RequestId ≠ req.RequestId →
      exchangeResult ok x req ≠ ok := by
    intro req hne
    simp only [exchangeResult, RNDIS_SendEncapsulatedCommand, RNDIS_GetEncapsulatedResponse,
      if_pos hne]
    split
    · assumption
    · split
      · assumption
      · split <;> exact hok.symm
  have hi : (RNDIS_Host_InitializeDevice ok info x).Sent.RequestId = nextRequestID info := by
    simp only [RNDIS_Host_InitializeDevice]; split <;> rfl
  have hq : (RNDIS_Host_QueryRNDISProperty ok info Oid Buffer MaxLength x).Sent.RequestId
      = nextRequestID info := by
    simp only [RNDIS_Host_QueryRNDISProperty]; (repeat' split) <;> rfl
  rw [hi] at hinit
  rw [hq] at hquery
  refine ⟨?_, hx _ hkeep, hx _ hset, ?_, ?_, ?_⟩
  · simp only [RNDIS_Host_InitializeDevice]
    rw [if_neg (hx _ hinit)]
    exact hx _ hinit
  · simp only [RNDIS_Host_QueryRNDISProperty]
    rw [if_neg (hx _ hquery)]
    exact hx _ hquery
  · simp only [RNDIS_Host_InitializeDevice]
    rw [if_neg (hx _ hinit)]
    rfl
  · simp only [RNDIS_Host_QueryRNDISProperty]
    rw [if_neg (hx _ hquery)]

/-- Witness of C4: the request sent carries ID 42, the device answers with ID 41,
status 0, over a transport whose two transfers return the success code 0. -/
theorem mismatched_request_id_fails_witness :
    (RNDIS_Host_InitializeDevice 0 ⟨⟨1, false, 2, false, 3, false, 1514⟩,
        ⟨true, 0, 64, 64, 8, 0, 41⟩⟩ ⟨0, 0, ⟨41, 0, 1514, [1, 2]⟩⟩).ReturnCode ≠ 0 ∧
    (RNDIS_Host_QueryRNDISProperty 0 ⟨⟨1, false, 2, false, 3, false, 1514⟩,
        ⟨true, 0, 64, 64, 8, 0, 41⟩⟩ 7 [9, 9] 6 ⟨0, 0, ⟨41, 0, 1514, [1, 2]⟩⟩).Buffer = [9, 9] := by
  have h := mismatched_request_id_fails 0 ⟨⟨1, false, 2, false, 3, false, 1514⟩,
        ⟨true, 0, 64, 64, 8, 0, 41⟩⟩ ⟨0, 0, ⟨41, 0, 1514, [1, 2]⟩⟩ 7 [9, 9] 1 6
        (by decide) (by decide) (by decide) (by decide) (by decide)
  exact ⟨h.1, h.2.2.2.2.2⟩


/-- C2: the enumeration code NoError is 0, the four enumeration codes are pairwise
distinct, and the RNDIS_COMMAND_FAILED sentinel is 0xC0, non-zero, below 256 and
different from each of the four enumeration codes. -/
theorem error_codes_unambiguous :
    RNDIS_ENUMERROR_NoError = 0 ∧
    enumerationErrorCodes.Nodup ∧
    RNDIS_COMMAND_FAILED = 0xC0 ∧
    RNDIS_COMMAND_FAILED ≠ 0 ∧
    RNDIS_COMMAND_FAILED < 256 ∧
    RNDIS_COMMAND_FAILED ∉ enumerationErrorCodes := by
  decide

/-- C7: the three found-endpoint flags are distinct single-bit values (1, 2 and 4);
for every collection S of flags, the OR of the flags in S equals the all-found
mask 7 exactly when S holds all three flags, and the bit of a flag is set in the
OR exactly when that flag is in S. -/
theorem found_mask_independent (S : List FoundEndpoint) :
    (RNDIS_FOUND_DATAPIPE_IN = 2 ^ 0 ∧ RNDIS_FOUND_DATAPIPE_OUT = 2 ^ 1 ∧
      RNDIS_FOUND_NOTIFICATION_IN = 2 ^ 2) ∧
    [RNDIS_FOUND_DATAPIPE_IN, RNDIS_FOUND_DATAPIPE_OUT, RNDIS_FOUND_NOTIFICATION_IN].Nodup ∧
    allEndpointsFound = 7 ∧
    (foundMask S = allEndpointsFound ↔ ∀ e : FoundEndpoint, e ∈ S) ∧
    (∀ e : FoundEndpoint, foundMask S &&& e.flag ≠ 0 ↔ e ∈ S) := by
  have hbit : ∀ e : FoundEndpoint, foundMask S &&& e.flag ≠ 0 ↔ e ∈ S := by
    intro e
    unfold foundMask
    rw [foldl_or_flag_bit S 0 (by decide) e]
    simp
  refine ⟨by decide, by decide, by decide, ?_, hbit⟩
  have hlt : foundMask S < 8 := foldl_or_flag_lt S 0 (by decide)
  rw [mask_eq_all_iff (foundMask S) hlt]
  exact forall_congr' hbit

/-- C9: the task hook leaves the driver instance as it was: the instance after the
call equals the instance before it, so IsActive, RequestID, DeviceMaxPacketSize and
the three pipe sizes are unchanged, and any number of calls in a row leaves the
instance (and so the request-ID counter) unchanged. -/
theorem usbtask_is_noop (info : USB_ClassInfo_RNDIS_Host_t) :
    RNDIS_Host_USBTask info = info ∧
    (RNDIS_Host_USBTask info).State.IsActive = info.State.IsActive ∧
    (RNDIS_Host_USBTask info).State.RequestID = info.State.RequestID ∧
    (RNDIS_Host_USBTask info).State.DeviceMaxPacketSize = info.State.DeviceMaxPacketSize ∧
    (RNDIS_Host_USBTask info).State.DataINPipeSize = info.State.DataINPipeSize ∧
    (RNDIS_Host_USBTask info).State.DataOUTPipeSize = info.State.DataOUTPipeSize ∧
    (RNDIS_Host_USBTask info).State.NotificationPipeSize = info.State.NotificationPipeSize ∧
    (∀ n : Nat, (RNDIS_Host_USBTask^[n] info) = info ∧
      (RNDIS_Host_USBTask^[n] info).State.RequestID = info.State.RequestID) := by
  refine ⟨rfl, rfl, rfl, rfl, rfl, rfl, rfl, ?_⟩
  intro n
  have h : RNDIS_Host_USBTask^[n] info = info := by
    induction n with
    | zero => rfl
    | succ k ih => rw [Function.iterate_succ_apply, show RNDIS_Host_USBTask info = info from rfl, ih]
  rw [h]
  exact ⟨rfl, rfl⟩

/-- C10: no (class, subclass, protocol) triple equals both the control and the data
signature; the two signatures differ in each of the three fields, and the data
signature is class 0x0A with subclass 0 and protocol 0. -/
theorem signatures_exclusive (cls sub proto : Nat) :
    ¬ ((cls, sub, proto) = controlSignature ∧ (cls, sub, proto) = dataSignature) ∧
    RNDIS_CONTROL_CLASS ≠ RNDIS_DATA_CLASS ∧
    RNDIS_CONTROL_SUBCLASS ≠ RNDIS_DATA_SUBCLASS ∧
    RNDIS_CONTROL_PROTOCOL ≠ RNDIS_DATA_PROTOCOL ∧
    dataSignature = (0x0A, 0, 0) := by
  refine ⟨?_, by decide, by decide, by decide, by decide⟩
  rintro ⟨h1, h2⟩
  have h : controlSignature = dataSignature := h1.symm.trans h2
  exact absurd h (by decide)

/-- C8 (as stated, refuted): the control signature's class value is 0x02, not the
vendor-specific class 0xFF: the interface triple (0x02, 0x02, 0xFF) equals the control
signature although its class field is not 0xFF, so matching the signature does not
require the vendor-specific class. -/
theorem control_class_not_vendor_specific :
    RNDIS_CONTROL_CLASS ≠ 0xFF ∧
    (((0x02, 0x02, 0xFF) : Nat × Nat × Nat) = controlSignature ∧ (0x02 : Nat) ≠ 0xFF) ∧
    ¬ (∀ cls sub proto : Nat, (cls, sub, proto) = controlSignature → cls = 0xFF) := by
  refine ⟨by decide, by decide, ?_⟩
  intro h
  exact absurd (h 0x02 0x02 0xFF (by decide)) (by decide)

/-- C8 (amended): the control signature is class 0x02, subclass 0x02 and protocol
0xFF (the vendor-specific code sits in the protocol field): a (class, subclass,
protocol) triple equals the control signature exactly when its class is 0x02, its
subclass 0x02 and its protocol 0xFF. -/
theorem control_signature_values (cls sub proto : Nat) :
    controlSignature = (0x02, 0x02, 0xFF) ∧
    ((cls, sub, proto) = controlSignature ↔ cls = 0x02 ∧ sub = 0x02 ∧ proto = 0xFF) := by
  refine ⟨by decide, ?_⟩
  simp [controlSignature, RNDIS_CONTROL_CLASS, RNDIS_CONTROL_SUBCLASS, RNDIS_CONTROL_PROTOCOL]

/-- C3 (as stated, refuted): starting from the counter value 0xFFFFFFFE, a keep-alive,
a set and a query in a row send the request IDs 0xFFFFFFFF, 0, 1: the 32-bit
counter wraps, so the IDs are not strictly increasing and the counter does not go
up by one at the wrap. -/
theorem request_ids_wrap_at_32_bits :
    (runCalls 0 ⟨⟨1, false, 2, false, 3, false, 1514⟩, ⟨true, 0, 64, 64, 8, 1514, 0xFFFFFFFE⟩⟩
      [.keepAlive ⟨0, 0, ⟨0xFFFFFFFF, 0, 0, []⟩⟩,
       .set 0x0101010E [1] 1 ⟨0, 0, ⟨0, 0, 0, []⟩⟩,
       .query 0x01010101 [0, 0, 0, 0, 0, 0] 6 ⟨0, 0, ⟨1, 0, 0, [2, 0, 0, 0, 0, 1]⟩⟩]).1
      = [0xFFFFFFFF, 0, 1] ∧
    ¬ List.Pairwise (· < ·)
      (runCalls 0 ⟨⟨1, false, 2, false, 3, false, 1514⟩, ⟨true, 0, 64, 64, 8, 1514, 0xFFFFFFFE⟩⟩
        [.keepAlive ⟨0, 0, ⟨0xFFFFFFFF, 0, 0, []⟩⟩,
         .set 0x0101010E [1] 1 ⟨0, 0, ⟨0, 0, 0, []⟩⟩,
         .query 0x01010101 [0, 0, 0, 0, 0, 0] 6 ⟨0, 0, ⟨1, 0, 0, [2, 0, 0, 0, 0, 1]⟩⟩]).1 ∧
    (RNDIS_Host_SendKeepAlive 0
      ⟨⟨1, false, 2, false, 3, false, 1514⟩, ⟨true, 0, 64, 64, 8, 1514, 0xFFFFFFFF⟩⟩
      ⟨0, 0, ⟨0, 0, 0, []⟩⟩).Info.State.RequestID ≠ 0xFFFFFFFF + 1 := by
  decide

/-- C3 (amended): every call of query, set or keep-alive sends the counter's next
value modulo 2 ^ 32 and leaves the counter at that value; N consecutive calls send N
request IDs, the i-th being (start + 1 + i) mod 2 ^ 32; as long as the counter does not
wrap (start + N < 2 ^ 32) the IDs are strictly increasing and the counter ends at
start + N; and for N up to 2 ^ 32 no ID is repeated. -/
theorem request_ids_monotone_until_wrap (ok : Nat) (info : USB_ClassInfo_RNDIS_Host_t)
    (calls : List ControlCall) :
    (∀ c : ControlCall,
      (c.run ok info).Sent.RequestId = (info.State.RequestID + 1) % 2 ^ 32 ∧
      (c.run ok info).Info.State.RequestID = (info.State.RequestID + 1) % 2 ^ 32) ∧
    (runCalls ok info calls).1 =
      (List.range calls.length).map (fun i => (info.State.RequestID + 1 + i) % 2 ^ 32) ∧
    (runCalls ok info calls).1.length = calls.length ∧
    (info.State.RequestID + calls.length < 2 ^ 32 →
      List.Pairwise (· < ·) (runCalls ok info calls).1 ∧
      (runCalls ok info calls).2.State.RequestID = info.State.RequestID + calls.length) ∧
    (calls.length ≤ 2 ^ 32 → (runCalls ok info calls).1.Nodup) := by
  obtain ⟨hids, hfinal⟩ := runCalls_spec ok calls info
  refine ⟨fun c => ⟨run_sent_requestId ok info c, run_counter ok info c⟩, hids, ?_, ?_, ?_⟩
  · rw [hids]; simp
  · intro hlt
    refine ⟨?_, ?_⟩
    · rw [hids, List.pairwise_map]
      refine List.Pairwise.imp_of_mem ?_ (List.pairwise_lt_range calls.length)
      intro a b ha hb hab
      rw [List.mem_range] at ha hb
      rw [Nat.mod_eq_of_lt (by omega), Nat.mod_eq_of_lt (by omega)]
      omega
    · rw [hfinal]
      split
      · next h => subst h; simp
      · exact Nat.mod_eq_of_lt hlt
  · intro hle
    rw [hids]
    refine List.Nodup.map_on ?_ (List.nodup_range calls.length)
    intro a ha b hb hab
    rw [List.mem_range] at ha hb
    have h1 : (info.State.RequestID + 1 + a) % 2 ^ 32 = (info.State.RequestID + 1 + b) % 2 ^ 32 := hab
    omega

/-- Witness of C3 (amended): three calls starting from the counter value 41 send
the IDs 42, 43, 44 and leave the counter at 44. -/
theorem request_ids_monotone_until_wrap_witness :
    List.Pairwise (· < ·)
      (runCalls 0 ⟨⟨1, false, 2, false, 3, false, 1514⟩, ⟨true, 0, 64, 64, 8, 1514, 41⟩⟩
        [.keepAlive ⟨0, 0, ⟨42, 0, 0, []⟩⟩,
         .set 0x0101010E [1] 1 ⟨0, 0, ⟨43, 0, 0, []⟩⟩,
         .query 0x01010101 [0, 0, 0, 0, 0, 0] 6 ⟨0, 0, ⟨44, 0, 0, [2, 0, 0, 0, 0, 1]⟩⟩]).1 ∧
    (runCalls 0 ⟨⟨1, false, 2, false, 3, false, 1514⟩, ⟨true, 0, 64, 64, 8, 1514, 41⟩⟩
        [.keepAlive ⟨0, 0, ⟨42, 0, 0, []⟩⟩,
         .set 0x0101010E [1] 1 ⟨0, 0, ⟨43, 0, 0, []⟩⟩,
         .query 0x01010101 [0, 0, 0, 0, 0, 0] 6 ⟨0, 0, ⟨44, 0, 0, [2, 0, 0, 0, 0, 1]⟩⟩]).1.Nodup := by
  have h := request_ids_monotone_until_wrap 0
    ⟨⟨1, false, 2, false, 3, false, 1514⟩, ⟨true, 0, 64, 64, 8, 1514, 41⟩⟩
    [.keepAlive ⟨0, 0, ⟨42, 0, 0, []⟩⟩,
     .set 0x0101010E [1] 1 ⟨0, 0, ⟨43, 0, 0, []⟩⟩,
     .query 0x01010101 [0, 0, 0, 0, 0, 0] 6 ⟨0, 0, ⟨44, 0, 0, [2, 0, 0, 0, 0, 1]⟩⟩]
  exact ⟨(h.2.2.2.1 (by decide)).1, h.2.2.2.2 (by decide)⟩

/-- C5: on an active interface, for every payload whose length fits a uint16_t and,
with the header, the size the host can buffer, the bytes RNDIS_Host_SendPacket
writes to the bulk OUT pipe are the packet message header followed by the payload,
and these bytes, presented unchanged on the bulk IN pipe, make
RNDIS_Host_ReadPacket return success, store the payload length through PacketLength
and put exactly the payload bytes at the start of the buffer. -/
theorem packet_round_trip (codes : StreamCodes) (info : USB_ClassInfo_RNDIS_Host_t)
    (out : BulkOUTPipe) (payload Buffer : List Nat) (PacketLength readError : Nat)
    (hactive : info.State.IsActive = true)
    (hwrite : out.WriteCode = codes.Success)
    (hlen : payload.length < 2 ^ 16)
    (hmax : RNDIS_PACKET_HEADER_SIZE + payload.length ≤ info.Config.HostMaxPacketSize) :
    (RNDIS_Host_SendPacket codes info out payload payload.length).ReturnCode = codes.Success ∧
    (RNDIS_Host_SendPacket codes info out payload payload.length).Written
      = (packetHeader payload.length).toBytes ++ payload ∧
    RNDIS_Host_ReadPacket codes info
        ⟨(RNDIS_Host_SendPacket codes info out payload payload.length).Written, readError⟩
        Buffer PacketLength
      = { ReturnCode := codes.Success,
          Buffer := payload ++ Buffer.drop payload.length,
          PacketLength := payload.length } := by
  have hsend : RNDIS_Host_SendPacket codes info out payload payload.length
      = { ReturnCode := codes.Success,
          Written := (packetHeader payload.length).toBytes ++ payload } := by
    have hmod : payload.length % 2 ^ 16 = payload.length := Nat.mod_eq_of_lt hlen
    simp only [RNDIS_Host_SendPacket, hactive, hwrite, hmod, List.take_length]
    simp
  rw [hsend]
  refine ⟨rfl, rfl, ?_⟩
  have hlenH := toBytes_length (packetHeader payload.length)
  have htake : ((packetHeader payload.length).toBytes ++ payload).take RNDIS_PACKET_HEADER_SIZE
      = (packetHeader payload.length).toBytes := by
    rw [← hlenH, List.take_left]
  have hm := ofBytes_toBytes (packetHeader payload.length) (packetHeader_fields_lt _ hlen)
  have hne : (packetHeader payload.length).toBytes ++ payload ≠ [] := by
    intro h
    have := congrArg List.length h
    simp [hlenH, RNDIS_PACKET_HEADER_SIZE] at this
  have hdrop : ((packetHeader payload.length).toBytes ++ payload).drop RNDIS_PACKET_HEADER_SIZE
      = payload := by
    rw [← hlenH, List.drop_left]
  have hcons : headerConsistent info (packetHeader payload.length) = true := by
    simp [headerConsistent, packetHeader, hmax]
  simp only [RNDIS_Host_ReadPacket, hactive, Bool.true_eq_false, if_false, hne, htake, hm,
    hcons, List.length_append, hlenH]
  have hoff : (packetHeader payload.length).DataOffset = RNDIS_PACKET_HEADER_SIZE := rfl
  have hdl : (packetHeader payload.length).DataLength = payload.length := rfl
  have hmod : payload.length % 2 ^ 16 = payload.length := Nat.mod_eq_of_lt hlen
  rw [hoff, hdl, hdrop, hmod]
  simp

/-- Witness of C5: the two-byte payload DE AD sent on an active interface whose host
buffers 1514 bytes comes back as the payload with length 2. -/
theorem packet_round_trip_witness :
    RNDIS_Host_ReadPacket ⟨0, 2, 1, 3⟩
        ⟨⟨1, false, 2, false, 3, false, 1514⟩, ⟨true, 0, 64, 64, 8, 1514, 0⟩⟩
        ⟨(RNDIS_Host_SendPacket ⟨0, 2, 1, 3⟩
            ⟨⟨1, false, 2, false, 3, false, 1514⟩, ⟨true, 0, 64, 64, 8, 1514, 0⟩⟩
            ⟨0⟩ [0xDE, 0xAD] [0xDE, 0xAD].length).Written, 4⟩
        [0, 0, 0, 0] 0
      = { ReturnCode := 0, Buffer := [0xDE, 0xAD] ++ [0, 0, 0, 0].drop [0xDE, 0xAD].length,
          PacketLength := [0xDE, 0xAD].length } :=
  (packet_round_trip ⟨0, 2, 1, 3⟩
    ⟨⟨1, false, 2, false, 3, false, 1514⟩, ⟨true, 0, 64, 64, 8, 1514, 0⟩⟩
    ⟨0⟩ [0xDE, 0xAD] [0, 0, 0, 0] 0 4 rfl rfl (by decide) (by decide)).2.2

/-- C6 (as stated, refuted): the configuration descriptor with the RNDIS control
interface, four class-specific descriptors, the interrupt IN endpoint 0x83, the data
interface and the bulk endpoints 0x02 (OUT) and 0x81 (IN) is well-formed (it parses
into its ten descriptors) and all three endpoints are found (mask 7), yet on a pipe
layer that refuses the pipes RNDIS_Host_ConfigurePipes returns
RNDIS_ENUMERROR_EndpointsNotFound, not RNDIS_ENUMERROR_NoError, and leaves the
interface inactive. -/
theorem configure_pipes_fails_when_pipes_refused :
    parseConfigDescriptor
        [9, 2, 67, 0, 2, 1, 0, 0xC0, 50, 9, 4, 0, 0, 1, 0x02, 0x02, 0xFF, 0,
         5, 0x24, 0, 0x10, 0x01, 5, 0x24, 1, 0, 1, 4, 0x24, 2, 0, 5, 0x24, 6, 0, 1,
         7, 5, 0x83, 0x03, 8, 0, 0xFF, 9, 4, 1, 0, 2, 0x0A, 0, 0, 0,
         7, 5, 0x02, 0x02, 64, 0, 0, 7, 5, 0x81, 0x02, 64, 0, 0]
      = some [[9, 2, 67, 0, 2, 1, 0, 0xC0, 50], [9, 4, 0, 0, 1, 0x02, 0x02, 0xFF, 0],
          [5, 0x24, 0, 0x10, 0x01], [5, 0x24, 1, 0, 1], [4, 0x24, 2, 0], [5, 0x24, 6, 0, 1],
          [7, 5, 0x83, 0x03, 8, 0, 0xFF], [9, 4, 1, 0, 2, 0x0A, 0, 0, 0],
          [7, 5, 0x02, 0x02, 64, 0, 0], [7, 5, 0x81, 0x02, 64, 0, 0]] ∧
    RNDIS_Host_ConfigurePipes ⟨fun _ _ _ _ => false⟩
        ⟨⟨1, false, 2, false, 3, false, 1514⟩, ⟨false, 0, 0, 0, 0, 0, 0⟩⟩ 67
        [9, 2, 67, 0, 2, 1, 0, 0xC0, 50, 9, 4, 0, 0, 1, 0x02, 0x02, 0xFF, 0,
         5, 0x24, 0, 0x10, 0x01, 5, 0x24, 1, 0, 1, 4, 0x24, 2, 0, 5, 0x24, 6, 0, 1,
         7, 5, 0x83, 0x03, 8, 0, 0xFF, 9, 4, 1, 0, 2, 0x0A, 0, 0, 0,
         7, 5, 0x02, 0x02, 64, 0, 0, 7, 5, 0x81, 0x02, 64, 0, 0]
      = { Info := ⟨⟨1, false, 2, false, 3, false, 1514⟩, ⟨false, 0, 0, 0, 0, 0, 0⟩⟩,
          ReturnCode := RNDIS_ENUMERROR_EndpointsNotFound,
          FoundEndpoints := 7 } ∧
    RNDIS_ENUMERROR_EndpointsNotFound ≠ RNDIS_ENUMERROR_NoError := by
  decide

/-- C6 (amended): for every well-formed configuration descriptor (of a size that
fits a uint16_t: a configuration descriptor followed by descriptors, each with its
own length in its first byte and all its fields present) in which the first, in
particular the only, RNDIS control interface has the interrupt IN endpoint `notif`
in its extent and is followed by the data interface with the bulk IN endpoint
`dataIn` and the bulk OUT endpoint `dataOut` in its extent, the found-endpoint bitmask
of RNDIS_Host_ConfigurePipes is IN | OUT | NOTIFICATION = 7; when the pipe layer
grants the three pipes bound to these endpoints the function returns
RNDIS_ENUMERROR_NoError and leaves the interface active, and when it refuses one of
them the function returns RNDIS_ENUMERROR_EndpointsNotFound and leaves the interface
inactive. -/
theorem configure_pipes_succeeds_when_pipes_granted (host : PipeHost)
    (info : USB_ClassInfo_RNDIS_Host_t) (cfg ctrl dataIf notif dataIn dataOut : List Nat)
    (pre cext dext post : List (List Nat))
    (hsize : (cfg :: (pre ++ ctrl :: (cext ++ dataIf :: (dext ++ post)))).flatten.length < 2 ^ 16)
    (hwf : ∀ d ∈ cfg :: (pre ++ ctrl :: (cext ++ dataIf :: (dext ++ post))),
      WellFormedDescriptor d)
    (hcfg : DESCRIPTOR_TYPE cfg = DTYPE_Configuration)
    (hpre : ∀ d ∈ pre, DCOMP_RNDIS_Host_NextRNDISControlInterface d = false)
    (hctrl : DCOMP_RNDIS_Host_NextRNDISControlInterface ctrl = true)
    (hcext : ∀ d ∈ cext, isInterface d = false)
    (hnotif : cext.find? isNotificationEndpoint = some notif)
    (hdata : DCOMP_RNDIS_Host_NextRNDISDataInterface dataIf = true)
    (hdext : ∀ d ∈ dext, isInterface d = false)
    (hin : dext.find? isDataINEndpoint = some dataIn)
    (hout : dext.find? isDataOUTEndpoint = some dataOut) :
    (RNDIS_Host_ConfigurePipes host info
        (cfg :: (pre ++ ctrl :: (cext ++ dataIf :: (dext ++ post)))).flatten.length
        (cfg :: (pre ++ ctrl :: (cext ++ dataIf :: (dext ++ post)))).flatten).FoundEndpoints
      = (RNDIS_FOUND_DATAPIPE_IN ||| RNDIS_FOUND_DATAPIPE_OUT ||| RNDIS_FOUND_NOTIFICATION_IN) ∧
    ((host.ConfigurePipe info.Config.NotificationPipeNumber (EndpointAddress notif)
          (EndpointSize notif) info.Config.NotificationPipeDoubleBank = true ∧
      host.ConfigurePipe info.Config.DataINPipeNumber (EndpointAddress dataIn)
          (EndpointSize dataIn) info.Config.DataINPipeDoubleBank = true ∧
      host.ConfigurePipe info.Config.DataOUTPipeNumber (EndpointAddress dataOut)
          (EndpointSize dataOut) info.Config.DataOUTPipeDoubleBank = true) →
      (RNDIS_Host_ConfigurePipes host info
          (cfg :: (pre ++ ctrl :: (cext ++ dataIf :: (dext ++ post)))).flatten.length
          (cfg :: (pre ++ ctrl :: (cext ++ dataIf :: (dext ++ post)))).flatten).ReturnCode
        = RNDIS_ENUMERROR_NoError ∧
      (RNDIS_Host_ConfigurePipes host info
          (cfg :: (pre ++ ctrl :: (cext ++ dataIf :: (dext ++ post)))).flatten.length
          (cfg :: (pre ++ ctrl :: (cext ++ dataIf :: (dext ++ post)))).flatten).Info.State.IsActive
        = true) ∧
    (¬ (host.ConfigurePipe info.Config.NotificationPipeNumber (EndpointAddress notif)
          (EndpointSize notif) info.Config.NotificationPipeDoubleBank = true ∧
      host.ConfigurePipe info.Config.DataINPipeNumber (EndpointAddress dataIn)
          (EndpointSize dataIn) info.Config.DataINPipeDoubleBank = true ∧
      host.ConfigurePipe info.Config.DataOUTPipeNumber (EndpointAddress dataOut)
          (EndpointSize dataOut) info.Config.DataOUTPipeDoubleBank = true) →
      (RNDIS_Host_ConfigurePipes host info
          (cfg :: (pre ++ ctrl :: (cext ++ dataIf :: (dext ++ post)))).flatten.length
          (cfg :: (pre ++ ctrl :: (cext ++ dataIf :: (dext ++ post)))).flatten).ReturnCode
        = RNDIS_ENUMERROR_EndpointsNotFound ∧
      (RNDIS_Host_ConfigurePipes host info
          (cfg :: (pre ++ ctrl :: (cext ++ dataIf :: (dext ++ post)))).flatten.length
          (cfg :: (pre ++ ctrl :: (cext ++ dataIf :: (dext ++ post)))).flatten).Info.State.IsActive
        = false) := by
  have hscan := scanDescriptors_shape cfg ctrl dataIf notif dataIn dataOut pre cext dext post
    hcfg hpre hctrl hcext hnotif hdata hdext hin hout
  have hparse := parseConfigDescriptor_flatten cfg _ hcfg hwf
  have hmask : ScanResult.FoundEndpoints ⟨InterfaceNumber ctrl, some notif, some dataIn,
      some dataOut⟩
      = (RNDIS_FOUND_DATAPIPE_IN ||| RNDIS_FOUND_DATAPIPE_OUT ||| RNDIS_FOUND_NOTIFICATION_IN) := by
    simp [ScanResult.FoundEndpoints]
  have hmod := Nat.mod_eq_of_lt hsize
  refine ⟨?_, ?_, ?_⟩
  · simp only [RNDIS_Host_ConfigurePipes, hmod, List.take_length, hparse, hscan]
    split <;> exact hmask
  · rintro ⟨g1, g2, g3⟩
    simp only [RNDIS_Host_ConfigurePipes, hmod, List.take_length, hparse, hscan, g1, g2, g3,
      Bool.and_self, if_true, and_self]
  · intro hng
    have hcond : ¬ ((host.ConfigurePipe info.Config.NotificationPipeNumber (EndpointAddress notif)
          (EndpointSize notif) info.Config.NotificationPipeDoubleBank
        && host.ConfigurePipe info.Config.DataINPipeNumber (EndpointAddress dataIn)
          (EndpointSize dataIn) info.Config.DataINPipeDoubleBank
        && host.ConfigurePipe info.Config.DataOUTPipeNumber (EndpointAddress dataOut)
          (EndpointSize dataOut) info.Config.DataOUTPipeDoubleBank) = true) := by
      intro h
      simp only [Bool.and_eq_true] at h
      exact hng ⟨h.1.1, h.1.2, h.2⟩
    simp only [RNDIS_Host_ConfigurePipes, hmod, List.take_length, hparse, hscan, if_neg hcond]
    exact ⟨trivial, rfl⟩

/-- Witness of C6 (amended): a configuration descriptor with the RNDIS control
interface, four class-specific descriptors, the interrupt IN endpoint 0x83, the data
interface and the bulk endpoints 0x02 (OUT) and 0x81 (IN), on a pipe layer granting
every pipe. -/
theorem configure_pipes_succeeds_when_pipes_granted_witness :
    (RNDIS_Host_ConfigurePipes ⟨fun _ _ _ _ => true⟩
        ⟨⟨1, false, 2, false, 3, false, 1514⟩, ⟨false, 0, 0, 0, 0, 0, 0⟩⟩
        ([9, 2, 67, 0, 2, 1, 0, 0xC0, 50] :: ([] ++ [9, 4, 0, 0, 1, 0x02, 0x02, 0xFF, 0] ::
          ([[5, 0x24, 0, 0x10, 0x01], [5, 0x24, 1, 0, 1], [4, 0x24, 2, 0], [5, 0x24, 6, 0, 1],
            [7, 5, 0x83, 0x03, 8, 0, 0xFF]] ++ [9, 4, 1, 0, 2, 0x0A, 0, 0, 0] ::
          ([[7, 5, 0x02, 0x02, 64, 0, 0], [7, 5, 0x81, 0x02, 64, 0, 0]] ++ [])))).flatten.length
        ([9, 2, 67, 0, 2, 1, 0, 0xC0, 50] :: ([] ++ [9, 4, 0, 0, 1, 0x02, 0x02, 0xFF, 0] ::
          ([[5, 0x24, 0, 0x10, 0x01], [5, 0x24, 1, 0, 1], [4, 0x24, 2, 0], [5, 0x24, 6, 0, 1],
            [7, 5, 0x83, 0x03, 8, 0, 0xFF]] ++ [9, 4, 1, 0, 2, 0x0A, 0, 0, 0] ::
          ([[7, 5, 0x02, 0x02, 64, 0, 0], [7, 5, 0x81, 0x02, 64, 0, 0]] ++ [])))).flatten).ReturnCode
      = RNDIS_ENUMERROR_NoError :=
  ((configure_pipes_succeeds_when_pipes_granted ⟨fun _ _ _ _ => true⟩
    ⟨⟨1, false, 2, false, 3, false, 1514⟩, ⟨false, 0, 0, 0, 0, 0, 0⟩⟩
    [9, 2, 67, 0, 2, 1, 0, 0xC0, 50] [9, 4, 0, 0, 1, 0x02, 0x02, 0xFF, 0]
    [9, 4, 1, 0, 2, 0x0A, 0, 0, 0] [7, 5, 0x83, 0x03, 8, 0, 0xFF]
    [7, 5, 0x81, 0x02, 64, 0, 0] [7, 5, 0x02, 0x02, 64, 0, 0] []
    [[5, 0x24, 0, 0x10, 0x01], [5, 0x24, 1, 0, 1], [4, 0x24, 2, 0], [5, 0x24, 6, 0, 1],
      [7, 5, 0x83, 0x03, 8, 0, 0xFF]]
    [[7, 5, 0x02, 0x02, 64, 0, 0], [7, 5, 0x81, 0x02, 64, 0, 0]] []
    (by decide) (by decide) (by decide) (by decide) (by decide) (by decide) (by decide)
    (by decide) (by decide) (by decide) (by decide)).2.1 ⟨rfl, rfl, rfl⟩).1

end RNDISHost
